import Mathlib

/-!
A shallow embedding of the `hook-service-operator` charm (src/src/*.py) and a
verification of its specification claims.

External inputs the charm merely reads (relation data, container connectivity,
leadership, exec results of the in-container CLI, the Pebble API) are modelled
as fields of an explicit state record; the charm's own logic (the readiness
gate, the ensure pipeline, the status projection, the environment-map merge,
the DSN template, the peer-data wrapper) is translated function by function
from the source.
-/

deriving instance DecidableEq for Except

namespace HookService

/-- Values that appear in the workload environment maps: the Python code puts
both strings and booleans into the dicts merged by `render_pebble_layer`. -/
inductive EnvVal where
  | s (v : String)
  | b (v : Bool)
deriving DecidableEq

/-- An environment map, modelling a Python `dict[str, str | bool]` at lookup
level: lookup finds the first binding, so `dict.update` / `{**low, **high}`
are modelled by prepending the higher-precedence bindings. -/
abbrev EnvMap := List (String × EnvVal)

/-- Dictionary lookup on an environment map. -/
def env_get (m : EnvMap) (k : String) : Option EnvVal :=
  List.lookup k m

/-- A parsed flat JSON object with string values, and the value type stored in
relation/secret data bags. -/
abbrev PDict := List (String × String)

-- Constants from src/src/constants.py.

def WORKLOAD_CONTAINER : String := "hook-service"
def SERVICE_COMMAND : String := "hook-service serve"
def API_TOKEN_SECRET_KEY : String := "api-token"
def API_TOKEN_SECRET_LABEL : String := "apitokensecret"
def CONFIG_CONSUMER_KEY_SECRET_KEY : String := "consumer-key"
def CONFIG_CONSUMER_SECRET_SECRET_KEY : String := "consumer-secret"
def OPENFGA_MODEL_ID : String := "openfga_model_id"

/-- The charm's typed error taxonomy. src/src/exceptions.py defines the base
class `CharmError` with subclasses `InvalidSalesforceConfig` and `PebbleError`.
Modelled from the spec: `MigrationError`, `MigrationCheckError` and
`CreateFgaStoreError` are imported by src/src/cli.py and src/src/charm.py but
their definitions are not under src/; spec §7 places them in the same
typed-failure taxonomy (each caught by its ensure step or by the pipeline's
`except CharmError`), so they are modelled as further `CharmError` variants. -/
inductive CharmErr where
  | invalidSalesforceConfig
  | pebbleError
  | migrationError
  | migrationCheckError (msg : String)
  | createFgaStoreError
deriving DecidableEq

/-- Python-level exceptions, distinguishing the charm's own `CharmError`
hierarchy from builtin exceptions that escape it (`json.JSONDecodeError`,
`TypeError` from subscripting `None`, `KeyError`). -/
inductive PyErr where
  | charm (e : CharmErr)
  | jsonDecodeError
  | typeError
  | keyError
deriving DecidableEq

/-- Whether an exception is caught by `except CharmError`. -/
def PyErr.isCharmError : PyErr → Bool
  | .charm _ => true
  | _ => false

-- A model of `json.loads` for the flat string-valued objects the CLI emits.

/-- Skip JSON whitespace. -/
def skip_ws : List Char → List Char
  | [] => []
  | c :: rest =>
    if c = ' ' ∨ c = '\n' ∨ c = '\t' ∨ c = '\r' then skip_ws rest else c :: rest

/-- Parse the remainder of a JSON string literal (no escape support), after
the opening quote; returns the contents and the input after the closing
quote. -/
def parse_string_chars : List Char → Option (String × List Char)
  | [] => none
  | c :: rest =>
    if c = '"' then some ("", rest)
    else
      match parse_string_chars rest with
      | some (tail, r) => some (String.mk (c :: tail.data), r)
      | none => none

/-- Parse one or more `"key": "value"` members separated by commas; `fuel`
bounds recursion by the input length. -/
def parse_members (fuel : Nat) (cs : List Char) :
    Option (List (String × String) × List Char) :=
  match fuel with
  | 0 => none
  | fuel + 1 =>
    match skip_ws cs with
    | '"' :: rest =>
      match parse_string_chars rest with
      | none => none
      | some (k, r1) =>
        match skip_ws r1 with
        | ':' :: r2 =>
          match skip_ws r2 with
          | '"' :: r3 =>
            match parse_string_chars r3 with
            | none => none
            | some (v, r4) =>
              match skip_ws r4 with
              | ',' :: r5 =>
                match parse_members fuel r5 with
                | some (ps, r6) => some ((k, v) :: ps, r6)
                | none => none
              | r5 => some ([(k, v)], r5)
          | _ => none
        | _ => none
    | _ => none

/-- Models Python `json.loads` restricted to the documents the hook-service
CLI emits: a flat JSON object with string keys and string values (spec §6,
e.g. a status object or a model-id object). Any other input is a decode
failure (`json.JSONDecodeError`), returned as `none`. -/
def json_loads (s : String) : Option PDict :=
  match skip_ws s.data with
  | '\x7b' :: rest =>
    match skip_ws rest with
    | '\x7d' :: r2 => if skip_ws r2 = [] then some [] else none
    | body =>
      match parse_members (s.data.length + 1) body with
      | some (ps, r) =>
        match skip_ws r with
        | '\x7d' :: r2 => if skip_ws r2 = [] then some ps else none
        | _ => none
      | none => none
  | _ => none

-- Secrets (src/src/secret.py). The secret store is modelled by the optional
-- content of the single API-token secret.

/-- Content of a Juju secret (a string-to-string dict). -/
abbrev SecretContent := PDict

/-- `Secrets.is_ready`: the values view is empty when the secret is not found
(`all` of the empty view is `False` per the code's explicit guard), and
otherwise requires the content dict to be truthy (non-empty). -/
def secrets_is_ready (sec : Option SecretContent) : Bool :=
  match sec with
  | none => false
  | some content => !content.isEmpty

/-- `Secrets.api_token`: `self[API_TOKEN_SECRET_LABEL][API_TOKEN_SECRET_KEY]`.
Subscripting the `None` returned for a missing secret raises `TypeError`; a
missing key in the content raises `KeyError`. -/
def secrets_api_token (sec : Option SecretContent) : Except PyErr String :=
  match sec with
  | none => .error .typeError
  | some content =>
    match List.lookup API_TOKEN_SECRET_KEY content with
    | some v => .ok v
    | none => .error .keyError

/-- `Secrets.to_env_vars`. -/
def secrets_to_env_vars (sec : Option SecretContent) : Except PyErr EnvMap :=
  match secrets_api_token sec with
  | .ok t => .ok [("API_TOKEN", .s t)]
  | .error e => .error e

-- Charm configuration (src/src/configs.py). Unset string options are
-- modelled as "" (both are falsy to the truthiness tests the code uses);
-- `salesforce_enabled` keeps its unset case because the code reads it once
-- with a `True` default and once with a falsy default.

structure ConfigData where
  log_level : String := "info"
  salesforce_enabled : Option Bool := none
  http_proxy : String := ""
  https_proxy : String := ""
  no_proxy : String := ""
  salesforce_domain : String := ""
  salesforce_consumer_secret : String := ""
  authn_allowed_subjects : String := ""
  authn_allowed_scope : String := ""
  authn_issuer : String := ""
  authn_jwks_url : String := ""
deriving DecidableEq

/-- `CharmConfig.get_missing_config_keys`: no keys are required unless
`salesforce_enabled` is truthy; otherwise each falsy `REQUIRED_KEYS` entry is
reported, in order. -/
def get_missing_config_keys (c : ConfigData) : List String :=
  if !(c.salesforce_enabled.getD false) then []
  else
    (if c.salesforce_domain = "" then ["salesforce_domain"] else []) ++
      (if c.salesforce_consumer_secret = "" then ["salesforce_consumer_secret"] else [])

/-- `CharmConfig.get_oauth_config`: the four authn keys that are set, in the
code's iteration order. -/
def get_oauth_config (c : ConfigData) : List (String × String) :=
  (if c.authn_allowed_subjects ≠ "" then
    [("authn_allowed_subjects", c.authn_allowed_subjects)] else []) ++
  (if c.authn_allowed_scope ≠ "" then
    [("authn_allowed_scope", c.authn_allowed_scope)] else []) ++
  (if c.authn_issuer ≠ "" then [("authn_issuer", c.authn_issuer)] else []) ++
  (if c.authn_jwks_url ≠ "" then [("authn_jwks_url", c.authn_jwks_url)] else [])

/-- `CharmConfig._get_salesforce_consumer_info`: resolves the secret referred
to by the `salesforce_consumer_secret` config option (its content is passed in
as `consumer`) and reads the consumer key and secret; any failure becomes
`InvalidSalesforceConfig`. -/
def get_salesforce_consumer_info (consumer : Option SecretContent) :
    Except CharmErr (String × String) :=
  match consumer with
  | none => .error .invalidSalesforceConfig
  | some content =>
    match List.lookup CONFIG_CONSUMER_KEY_SECRET_KEY content,
        List.lookup CONFIG_CONSUMER_SECRET_SECRET_KEY content with
    | some k, some s => .ok (k, s)
    | _, _ => .error .invalidSalesforceConfig

/-- Python `str.upper()` on the ASCII log-level values. -/
def str_upper (s : String) : String :=
  String.mk (s.data.map Char.toUpper)

/-- `CharmConfig.to_env_vars`: the base env dict (with `SALESFORCE_ENABLED`
defaulting to `True` when unset, and only the set oauth keys), updated with
the Salesforce consumer data when `salesforce_enabled` is truthy. -/
def config_to_env_vars (c : ConfigData) (consumer : Option SecretContent) :
    Except CharmErr EnvMap :=
  let env : EnvMap :=
    [("LOG_LEVEL", .s (str_upper c.log_level)),
     ("SALESFORCE_ENABLED", .b (c.salesforce_enabled.getD true)),
     ("HTTP_PROXY", .s c.http_proxy),
     ("HTTPS_PROXY", .s c.https_proxy),
     ("NO_PROXY", .s c.no_proxy)] ++
      (get_oauth_config c).map (fun kv => (kv.1, .s kv.2))
  if c.salesforce_enabled.getD false then
    match get_salesforce_consumer_info consumer with
    | .error e => .error e
    | .ok (ck, cs) =>
      .ok ([("SALESFORCE_CONSUMER_KEY", .s ck),
            ("SALESFORCE_CONSUMER_SECRET", .s cs),
            ("SALESFORCE_DOMAIN", .s c.salesforce_domain)] ++ env)
  else .ok env

-- Integration snapshots (src/src/integrations.py).

/-- The data source from the tracing integration. -/
structure TracingData where
  is_ready : Bool := false
  http_endpoint : String := ""
deriving DecidableEq

/-- `TracingData.to_env_vars`. -/
def tracing_to_env_vars (t : TracingData) : EnvMap :=
  [("TRACING_ENABLED", .b t.is_ready),
   ("OTEL_HTTP_ENDPOINT", .s t.http_endpoint)]

/-- The data source from the database integration. -/
structure DatabaseConfig where
  endpoint : String := ""
  database : String := ""
  username : String := ""
  password : String := ""
deriving DecidableEq

/-- `DatabaseConfig.dsn`: `POSTGRESQL_DSN_TEMPLATE.substitute(...)` with the
template `postgres://$username:$password@$endpoint/$database`
(src/src/constants.py); `string.Template.substitute` inserts the values
verbatim. -/
def DatabaseConfig.dsn (c : DatabaseConfig) : String :=
  "postgres://" ++ c.username ++ ":" ++ c.password ++ "@" ++ c.endpoint ++
    "/" ++ c.database

/-- `DatabaseConfig.to_env_vars`. -/
def db_to_env_vars (c : DatabaseConfig) : EnvMap :=
  [("DSN", .s c.dsn)]

/-- The data source of the OpenFGA model, loaded from a peer-data dict. -/
structure OpenFGAModelData where
  model_id : String := ""
deriving DecidableEq

/-- `OpenFGAModelData.load`. -/
def OpenFGAModelData.load (source : PDict) : OpenFGAModelData :=
  { model_id := (List.lookup OPENFGA_MODEL_ID source).getD "" }

/-- `OpenFGAModelData.to_env_vars`. -/
def openfga_model_to_env_vars (m : OpenFGAModelData) : EnvMap :=
  [("OPENFGA_AUTHORIZATION_MODEL_ID", .s m.model_id)]

/-- Models `urllib.parse.urlparse(url).scheme` for the absolute URLs the
OpenFGA provider supplies (`scheme://netloc[/path]`); a URL without `://`
yields no scheme here (such URLs do not occur in the integration data). -/
def url_scheme (url : String) : String :=
  match url.splitOn "://" with
  | _ :: [] => ""
  | s :: _ => s
  | [] => ""

/-- Models `urllib.parse.urlparse(url).netloc` in the same restricted
setting. -/
def url_netloc (url : String) : String :=
  match url.splitOn "://" with
  | _ :: r :: _ => ((r.splitOn "/").headD "")
  | _ => ""

/-- The data source from the OpenFGA integration. -/
structure OpenFGAIntegrationData where
  url : String := ""
  api_token : String := ""
  store_id : String := ""
deriving DecidableEq

/-- `OpenFGAIntegrationData.to_env_vars`. -/
def ofga_to_env_vars (d : OpenFGAIntegrationData) : EnvMap :=
  let authz_enabled := d.store_id ≠ "" ∧ d.api_token ≠ "" ∧ d.url ≠ ""
  [("OPENFGA_STORE_ID", .s d.store_id),
   ("OPENFGA_API_TOKEN", .s d.api_token),
   ("OPENFGA_API_SCHEME", .s (url_scheme d.url)),
   ("OPENFGA_API_HOST", .s (url_netloc d.url)),
   ("AUTHORIZATION_ENABLED", .b (decide authz_enabled))]

-- The Pebble layer (src/src/services.py and src/src/env_vars.py).

/-- `DEFAULT_CONTAINER_ENV` from src/src/env_vars.py. -/
def DEFAULT_CONTAINER_ENV : EnvMap :=
  [("OTEL_HTTP_ENDPOINT", .s ""),
   ("OTEL_GRPC_ENDPOINT", .s ""),
   ("TRACING_ENABLED", .b false),
   ("LOG_LEVEL", .s "info"),
   ("PORT", .s "8080"),
   ("API_TOKEN", .s ""),
   ("SALESFORCE_ENABLED", .b true),
   ("SALESFORCE_CONSUMER_KEY", .s ""),
   ("SALESFORCE_CONSUMER_SECRET", .s ""),
   ("SALESFORCE_DOMAIN", .s ""),
   ("AUTHORIZATION_ENABLED", .b false)]

/-- The observable part of the rendered Pebble layer: the fixed service entry
of `PEBBLE_LAYER_DICT` plus the computed environment map. -/
structure Layer where
  command : String
  startup : String
  check_url : String
  environment : EnvMap
deriving DecidableEq

/-- `PebbleService.render_pebble_layer`, applied to the six env-var sources
the charm passes in `_pebble_layer` order (tracing, database, secrets, config,
OpenFGA model data, OpenFGA integration data): each source's contribution is
`dict.update`d into an accumulator (modelled by prepending, so later sources
win on lookup), and the result overrides `DEFAULT_CONTAINER_ENV`. The sources
that can raise are evaluated in the code's iteration order: secrets before
config. -/
def render_pebble_layer (tracing : TracingData) (db : DatabaseConfig)
    (sec : Option SecretContent) (cfg : ConfigData)
    (consumer : Option SecretContent) (model_data : OpenFGAModelData)
    (fga : OpenFGAIntegrationData) : Except PyErr Layer :=
  match secrets_to_env_vars sec with
  | .error e => .error e
  | .ok sec_env =>
    match config_to_env_vars cfg consumer with
    | .error e => .error (.charm e)
    | .ok cfg_env =>
      let updated_env_vars : EnvMap :=
        ofga_to_env_vars fga ++ openfga_model_to_env_vars model_data ++
          cfg_env ++ sec_env ++ db_to_env_vars db ++ tracing_to_env_vars tracing
      .ok { command := SERVICE_COMMAND,
            startup := "disabled",
            check_url := "http://localhost:8080/api/v0/status",
            environment := updated_env_vars ++ DEFAULT_CONTAINER_ENV }

-- Peer data (src/src/integrations.py, class PeerData). The peer relation's
-- application data bag maps keys to JSON strings; values are stored by
-- `json.dumps` of a dict and read back by `json.loads`, so the bag is
-- modelled with the dicts themselves. `none` models an absent peer relation.

abbrev PeerBag := List (String × PDict)

/-- `PeerData.__getitem__`: `{}` when the peer relation is absent or the key
is unset, otherwise the parsed stored dict. -/
def peer_data_get (pd : Option PeerBag) (key : String) : PDict :=
  match pd with
  | none => []
  | some bag => (List.lookup key bag).getD []

/-- `PeerData.__setitem__`: silently does nothing when the peer relation is
absent, otherwise assigns `data[key] = json.dumps(value)`. -/
def peer_data_set (pd : Option PeerBag) (key : String) (value : PDict) :
    Option PeerBag :=
  match pd with
  | none => none
  | some bag => some ((key, value) :: bag.filter (fun kv => kv.1 ≠ key))

/-- `PeerData.pop`: `{}` and no change when the peer relation is absent,
otherwise removes the key and returns the parsed previous value (or `{}`). -/
def peer_data_pop (pd : Option PeerBag) (key : String) : PDict × Option PeerBag :=
  match pd with
  | none => ([], none)
  | some bag =>
    ((List.lookup key bag).getD [], some (bag.filter (fun kv => kv.1 ≠ key)))

-- The in-container CLI (src/src/cli.py).

/-- Outcome of `container.exec(cmd).wait_output()`: a pebble error (an
`ExecError` on non-zero exit, or any other `ops.pebble.Error`), or the
`(stdout, stderr)` pair on exit code 0. -/
inductive ExecOutcome where
  | fail
  | ok (stdout stderr : String)
deriving DecidableEq

/-- `CommandLine.migration_check`: a pebble error becomes
`MigrationCheckError`; non-empty stderr becomes `MigrationCheckError`;
otherwise stdout is fed to `json.loads` — whose decode error is NOT caught —
and the result is whether the `status` field equals `ok` (`dict.get` of a
missing key compares unequal). -/
def migration_check (check_exec : ExecOutcome) : Except PyErr Bool :=
  match check_exec with
  | .fail => .error (.charm (.migrationCheckError "Failed to check migration status"))
  | .ok stdout stderr =>
    if stderr ≠ "" then
      .error (.charm (.migrationCheckError ("Migration check error: " ++ stderr)))
    else
      match json_loads stdout with
      | none => .error .jsonDecodeError
      | some out => .ok (List.lookup "status" out == some "ok")

/-- The outcome of the (spec-modelled) provisioning command. Modelled from
the spec: `WorkloadService.create_openfga_model` is called by
`_ensure_openfga_model` but its definition is not under src/; per spec §4.2
step 5 and §7, a provisioning failure raises the typed `CreateFgaStoreError`
(caught by the step) and success yields the created model id. -/
inductive CreateModelOutcome where
  | ok (model_id : String)
  | fgaError
deriving DecidableEq

/-- The abstract status of the Kubernetes resource patch, as returned by the
(external) `resources_patch.get_status()`. -/
inductive ResourcePatchStatus where
  | active
  | waiting
  | blocked
deriving DecidableEq

/-- The charm's externally determined state at the start of a reconciliation
pass: unit leadership, container connectivity, presence and content of the
relations, configuration, secrets, and the behaviour the environment would
exhibit on the pass's side-effecting calls (exec results, whether `migrate up`
/ model creation / the Pebble plan call would fail). The OAuth requirer's
construction is not under src/ (utils.py reads
`charm.oauth_integration.is_ready()`), so its readiness is the abstract
boolean `oauth_client_created`, per spec §6. -/
structure CharmSt where
  leader : Bool := false
  can_connect : Bool := true
  db_relation_exists : Bool := true
  db_resource_created : Bool := true
  openfga_relation_exists : Bool := true
  hydra_relation_active : Bool := false
  ingress_ready : Bool := false
  oauth_client_created : Bool := false
  store_ready : Bool := false
  config : ConfigData := {}
  consumer_secret : Option SecretContent := none
  api_token_secret : Option SecretContent := none
  fresh_token : String := "746f6b656e"
  db : DatabaseConfig := {}
  check_exec : ExecOutcome := .fail
  migrate_up_fails : Bool := false
  create_model_outcome : CreateModelOutcome := .fgaError
  workload_version : String := ""
  peer_data : Option PeerBag := none
  plan_fails : Bool := false
  tracing : TracingData := {}
  fga_data : OpenFGAIntegrationData := {}
  workload_failing : Bool := false
  resource_patch_status : ResourcePatchStatus := .active
deriving DecidableEq

-- Conditions (src/src/utils.py).

/-- `container_connectivity`. -/
def container_connectivity (s : CharmSt) : Bool := s.can_connect

/-- `database_integration_exists`. -/
def database_integration_exists (s : CharmSt) : Bool := s.db_relation_exists

/-- `peer_integration_exists`: the peer relation is present exactly when the
peer-data bag exists. -/
def peer_integration_exists (s : CharmSt) : Bool := s.peer_data.isSome

/-- `openfga_integration_exists`. -/
def openfga_integration_exists (s : CharmSt) : Bool := s.openfga_relation_exists

/-- `config_readiness`: no missing required config keys. -/
def config_readiness (s : CharmSt) : Bool :=
  (get_missing_config_keys s.config).isEmpty

/-- `database_resource_is_created`. -/
def database_resource_is_created (s : CharmSt) : Bool := s.db_resource_created

/-- `utils.authentication_config_status`, reduced to whether the result is an
`ActiveStatus` (both `ActiveStatus` branches count as valid): invalid exactly
when the OAuth client is not created, some authn key is set, and
`authn_issuer` is not. -/
def authentication_config_is_valid (s : CharmSt) : Bool :=
  let oauth_config := get_oauth_config s.config
  let issuer_set := (List.lookup "authn_issuer" oauth_config).isSome
  let jwks_set := (List.lookup "authn_jwks_url" oauth_config).isSome
  if s.oauth_client_created ∧ (issuer_set ∨ jwks_set) then true
  else if ¬s.oauth_client_created ∧ (¬oauth_config.isEmpty ∧ ¬issuer_set) then false
  else true

/-- `NOOP_CONDITIONS` from src/src/utils.py, in order; `_holistic_handler`
returns immediately unless all are true. -/
def NOOP_CONDITIONS (s : CharmSt) : List Bool :=
  [container_connectivity s,
   database_integration_exists s,
   database_resource_is_created s,
   config_readiness s,
   openfga_integration_exists s,
   authentication_config_is_valid s]

/-- `charm.migration_needed`: `False` without a created database resource,
otherwise the negation of `migration_check` on the rendered DSN. -/
def migration_needed (s : CharmSt) : Except PyErr Bool :=
  if ¬s.db_resource_created then .ok false
  else
    match migration_check s.check_exec with
    | .ok checked => .ok !checked
    | .error e => .error e

/-- `utils.migration_is_ready`: `not charm.migration_needed`, with
`MigrationCheckError` caught and turned into `False`; any other exception
(the uncaught JSON decode error) propagates. -/
def migration_is_ready (s : CharmSt) : Except PyErr Bool :=
  match migration_needed s with
  | .ok needed => .ok !needed
  | .error (.charm (.migrationCheckError _)) => .ok false
  | .error e => .error e

-- Side-effect bookkeeping for a reconciliation pass.

/-- Counters and traces of the observable side effects of one reconciliation
pass; `steps_run` records which ensure steps were entered (1–6 in the
pipeline's list order) and `results` each completed step's boolean result
(with a caught `CharmError` counted as `false`, as the handler does). -/
structure Effects where
  steps_run : List Nat := []
  results : List Bool := []
  charm_errors_caught : Nat := 0
  secret_writes : Nat := 0
  hydra_updates : Nat := 0
  ingress_submits : Nat := 0
  migrate_up_calls : List String := []
  create_model_calls : Nat := 0
  tls_refreshes : Nat := 0
  plan_calls : Nat := 0
deriving DecidableEq

/-- The mutable world of one pass: the charm state plus effect bookkeeping. -/
structure World where
  st : CharmSt
  eff : Effects
deriving DecidableEq

-- The six ensure steps (src/src/charm.py).

/-- `_ensure_secrets`: success if the secret store is ready; otherwise the
leader creates the API-token secret (a fresh random token) and succeeds,
while a non-leader fails without writing. -/
def ensure_secrets (w : World) : Except PyErr Bool × World :=
  if secrets_is_ready w.st.api_token_secret then (.ok true, w)
  else if w.st.leader then
    (.ok true,
      { st := { w.st with
          api_token_secret := some [(API_TOKEN_SECRET_KEY, w.st.fresh_token)] },
        eff := { w.eff with secret_writes := w.eff.secret_writes + 1 } })
  else (.ok false, w)

/-- `_ensure_hydra_relation`: a leader with an active hydra-token-hook
relation pushes the hook URL and the API token (read from the secret store;
the URL computation is abstracted away) into the relation data; always
returns `True` otherwise. -/
def ensure_hydra_relation (w : World) : Except PyErr Bool × World :=
  if w.st.leader ∧ w.st.hydra_relation_active then
    match secrets_api_token w.st.api_token_secret with
    | .error e => (.error e, w)
    | .ok _ =>
      (.ok true, { w with eff := { w.eff with hydra_updates := w.eff.hydra_updates + 1 } })
  else (.ok true, w)

/-- `_ensure_internal_ingress`: a leader with a ready internal-route relation
(with a remote app) submits the rendered routing config to Traefik; always
returns `True`. -/
def ensure_internal_ingress (w : World) : Except PyErr Bool × World :=
  if w.st.leader ∧ w.st.ingress_ready then
    (.ok true, { w with eff := { w.eff with ingress_submits := w.eff.ingress_submits + 1 } })
  else (.ok true, w)

/-- `_ensure_database_migration`: success when migration is ready; a
non-leader fails and waits; the leader runs `migrate up` with the DSN from
the current database integration data, converting `MigrationError` to
failure. -/
def ensure_database_migration (w : World) : Except PyErr Bool × World :=
  match migration_is_ready w.st with
  | .error e => (.error e, w)
  | .ok true => (.ok true, w)
  | .ok false =>
    if ¬w.st.leader then (.ok false, w)
    else
      let w1 : World :=
        { w with eff := { w.eff with
            migrate_up_calls := w.eff.migrate_up_calls ++ [w.st.db.dsn] } }
      if w.st.migrate_up_fails then (.ok false, w1) else (.ok true, w1)

/-- Whether peer data records a (truthy) provisioning flag for the current
workload version: `self.peer_data[version].get(OPENFGA_MODEL_ID)`. -/
def openfga_model_flag (s : CharmSt) : Bool :=
  match List.lookup OPENFGA_MODEL_ID (peer_data_get s.peer_data s.workload_version) with
  | some v => v ≠ ""
  | none => false

/-- `_ensure_openfga_model`: fails without a ready store or peer relation;
succeeds without doing anything when the provisioning flag for the current
workload version is recorded; fails on a non-leader; otherwise the leader
invokes the model-creation command once (`CreateFgaStoreError` becoming
failure) and records the model id in peer data under the current version. -/
def ensure_openfga_model (w : World) : Except PyErr Bool × World :=
  if ¬w.st.store_ready then (.ok false, w)
  else if ¬peer_integration_exists w.st then (.ok false, w)
  else if openfga_model_flag w.st then (.ok true, w)
  else if ¬w.st.leader then (.ok false, w)
  else
    let w1 : World :=
      { w with eff := { w.eff with create_model_calls := w.eff.create_model_calls + 1 } }
    match w.st.create_model_outcome with
    | .fgaError => (.ok false, w1)
    | .ok mid =>
      (.ok true,
        { w1 with st := { w1.st with
            peer_data := peer_data_set w1.st.peer_data w.st.workload_version
              [(OPENFGA_MODEL_ID, mid)] } })

/-- `_ensure_tls`: refreshes the local CA bundle from the
certificate-transfer integration and reloads trusted roots; always returns
`True`. -/
def ensure_tls (w : World) : Except PyErr Bool × World :=
  (.ok true, { w with eff := { w.eff with tls_refreshes := w.eff.tls_refreshes + 1 } })

/-- The pipeline's step table, in the list order of `_holistic_handler`. -/
def run_ensure (w : World) : Nat → Except PyErr Bool × World
  | 1 => ensure_secrets w
  | 2 => ensure_hydra_relation w
  | 3 => ensure_internal_ingress w
  | 4 => ensure_database_migration w
  | 5 => ensure_openfga_model w
  | 6 => ensure_tls w
  | _ => (.ok true, w)

/-- Bookkeeping: note that step `i` was entered. -/
def record_step (w : World) (i : Nat) : World :=
  { w with eff := { w.eff with steps_run := w.eff.steps_run ++ [i] } }

/-- Bookkeeping: note a completed step's boolean result. -/
def record_result (w : World) (b : Bool) : World :=
  { w with eff := { w.eff with results := w.eff.results ++ [b] } }

/-- Bookkeeping: note a `CharmError` caught by the pipeline (counted as a
false result, as the handler treats it). -/
def record_caught (w : World) : World :=
  { w with eff := { w.eff with
      results := w.eff.results ++ [false],
      charm_errors_caught := w.eff.charm_errors_caught + 1 } }

/-- The `for f in [...]` loop of `_holistic_handler`: per iteration
`can_plan = can_plan and f()` — so `f()` is evaluated only while `can_plan`
still holds (Python `and` short-circuits) — with `except CharmError` turning
a typed failure into `can_plan = False`; any other exception propagates,
aborting the loop. Step entries and results are recorded in the effects. -/
def ensure_loop (step : World → Nat → Except PyErr Bool × World) :
    World → Bool → List Nat → World × Bool × Option PyErr
  | w, can_plan, [] => (w, can_plan, none)
  | w, can_plan, i :: rest =>
    if can_plan then
      match step (record_step w i) i with
      | (.ok b, w2) => ensure_loop step (record_result w2 b) b rest
      | (.error e, w2) =>
        if e.isCharmError then ensure_loop step (record_caught w2) false rest
        else (w2, false, some e)
    else ensure_loop step w can_plan rest

/-- `charm._pebble_layer`: the layer rendered from the current tracing,
database, secret, config, peer-data (OpenFGA model) and OpenFGA integration
snapshots. -/
def pebble_layer (s : CharmSt) : Except PyErr Layer :=
  render_pebble_layer s.tracing s.db s.api_token_secret s.config
    s.consumer_secret
    (OpenFGAModelData.load (peer_data_get s.peer_data s.workload_version))
    s.fga_data

/-- How a reconciliation pass ends: gated (readiness gate failed), blocked
(some ensure step failed), planned (desired state applied), or aborted by a
propagating exception. -/
inductive HOutcome where
  | gated
  | blocked
  | planned
  | raised (e : PyErr)
deriving DecidableEq

/-- The observable result of `_holistic_handler`. -/
structure HResult where
  st : CharmSt
  eff : Effects
  outcome : HOutcome
deriving DecidableEq

/-- The ensure pipeline of `_holistic_handler`: the loop over the six steps,
started with `can_plan = True` and a fresh pass's effects. -/
def run_pipeline (s : CharmSt) : World × Bool × Option PyErr :=
  ensure_loop run_ensure { st := s, eff := {} } true [1, 2, 3, 4, 5, 6]

/-- `_holistic_handler`: return immediately unless all `NOOP_CONDITIONS`
hold; run the six ensure steps through the short-circuiting loop; return if
`can_plan` ended up false; otherwise render the layer (exceptions from
rendering are not `PebbleError` and propagate) and plan it, re-raising the
`PebbleError` when the plan call fails. -/
def holistic_handler (s : CharmSt) : HResult :=
  if !(NOOP_CONDITIONS s).all id then { st := s, eff := {}, outcome := .gated }
  else
    match run_pipeline s with
    | (w, _, some e) => { st := w.st, eff := w.eff, outcome := .raised e }
    | (w, can_plan, none) =>
      if !can_plan then { st := w.st, eff := w.eff, outcome := .blocked }
      else
        match pebble_layer w.st with
        | .error e => { st := w.st, eff := w.eff, outcome := .raised e }
        | .ok _ =>
          let eff := { w.eff with plan_calls := w.eff.plan_calls + 1 }
          if w.st.plan_fails then
            { st := w.st, eff := eff, outcome := .raised (.charm .pebbleError) }
          else { st := w.st, eff := eff, outcome := .planned }

-- Status projection (src/src/charm.py, _on_collect_status).

/-- The statuses `_on_collect_status` can add, one constructor per
`add_status` call site (carrying the data interpolated into the message). -/
inductive UnitStatus where
  | waitingContainerNotConnected
  | blockedMissingConfig (keys : List String)
  | waitingSecretsCreation
  | blockedServiceFailing
  | blockedMissingDatabaseIntegration
  | waitingDatabaseCreation
  | blockedMissingOpenfgaIntegration
  | waitingOpenfgaStore
  | blockedMigrationCheckFailed (msg : String)
  | waitingDatabaseMigration
  | waitingLeaderMigration
  | patchWaiting
  | patchBlocked
  | active
deriving DecidableEq

/-- The ops status priority of each collected status (error 5 > blocked 4 >
maintenance 3 > waiting 2 > active 1 > unknown 0). -/
def UnitStatus.severity : UnitStatus → Nat
  | .waitingContainerNotConnected => 2
  | .blockedMissingConfig _ => 4
  | .waitingSecretsCreation => 2
  | .blockedServiceFailing => 4
  | .blockedMissingDatabaseIntegration => 4
  | .waitingDatabaseCreation => 2
  | .blockedMissingOpenfgaIntegration => 4
  | .waitingOpenfgaStore => 2
  | .blockedMigrationCheckFailed _ => 4
  | .waitingDatabaseMigration => 2
  | .waitingLeaderMigration => 2
  | .patchWaiting => 2
  | .patchBlocked => 4
  | .active => 1

/-- The status contributed by the external `resources_patch.get_status()`. -/
def resource_patch_to_status : ResourcePatchStatus → UnitStatus
  | .active => .active
  | .waiting => .patchWaiting
  | .blocked => .patchBlocked

/-- `charm._get_migration_status`: blocked when the readiness probe raises
`MigrationCheckError` (kept although `migration_is_ready` already converts
that error to `False`), waiting (leader and non-leader messages differ) when
migration is not ready, nothing when ready; other exceptions propagate. -/
def get_migration_status (s : CharmSt) : Except PyErr (Option UnitStatus) :=
  match migration_is_ready s with
  | .error (.charm (.migrationCheckError m)) => .ok (some (.blockedMigrationCheckFailed m))
  | .error e => .error e
  | .ok true => .ok none
  | .ok false =>
    .ok (some (if s.leader then .waitingDatabaseMigration else .waitingLeaderMigration))

/-- `_on_collect_status`: the statuses added, in the source's evaluation
order, always ending with the resource-patch status and `ActiveStatus`. -/
def collect_statuses (s : CharmSt) : Except PyErr (List UnitStatus) :=
  match get_migration_status s with
  | .error e => .error e
  | .ok migration_status =>
    .ok ((if !s.can_connect then [.waitingContainerNotConnected] else []) ++
      (if !(get_missing_config_keys s.config).isEmpty then
        [.blockedMissingConfig (get_missing_config_keys s.config)] else []) ++
      (if !secrets_is_ready s.api_token_secret then [.waitingSecretsCreation] else []) ++
      (if s.can_connect ∧ s.workload_failing then [.blockedServiceFailing] else []) ++
      (if !database_integration_exists s then [.blockedMissingDatabaseIntegration] else []) ++
      (if !database_resource_is_created s then [.waitingDatabaseCreation] else []) ++
      (if !openfga_integration_exists s then [.blockedMissingOpenfgaIntegration] else []) ++
      (if !s.store_ready then [.waitingOpenfgaStore] else []) ++
      (match migration_status with | some st => [st] | none => []) ++
      [resource_patch_to_status s.resource_patch_status, .active])

/-- Modelled from the spec: how the host framework turns the collected
statuses into the single displayed unit status. Spec §4.3 — "a prioritized
user-visible status (ordered worst-to-best: blocked > waiting > active)":
the highest-severity collected status is displayed, the earliest-added
winning ties (the ops framework's `StatusBase._get_highest_priority`, a
Python `max` by priority). -/
def pick_status : List UnitStatus → UnitStatus
  | [] => .active
  | s :: rest =>
    rest.foldl (fun best t => if t.severity > best.severity then t else best) s

/-- The unit status displayed after a collect-status event. -/
def reported_status (s : CharmSt) : Except PyErr UnitStatus :=
  match collect_statuses s with
  | .error e => .error e
  | .ok l => .ok (pick_status l)

-- Environment-map lemmas.

/-- `Option.orElse` re-associates, so a lookup falling through a chain of
maps can be read in either nesting. -/
theorem env_orElse_assoc (a : Option EnvVal) (f g : Unit → Option EnvVal) :
    (a.orElse f).orElse g = a.orElse (fun _ => (f ()).orElse g) := by
  cases a <;> simp [Option.orElse]

/-- Dictionary lookup distributes over the append that models the update
chain: the earlier (higher-precedence) map wins. -/
theorem env_get_append (a b : EnvMap) (k : String) :
    env_get (a ++ b) k = (env_get a k).orElse (fun _ => env_get b k) := by
  induction a with
  | nil => simp [env_get, List.lookup]
  | cons kv t ih =>
    obtain ⟨k1, v⟩ := kv
    simp only [List.cons_append, env_get, List.lookup] at ih ⊢
    cases h : k == k1 <;> simp [h, ih]

/-- C9: for all strings `u`, `p`, `h`, `d`, the DSN rendered from the
database configuration with `username = u`, `password = p`,
`endpoint = h:5432`, `database = d` is exactly
`postgres://u:p@h:5432/d` — the template inserts the values verbatim, with
no escaping, reordering, or added characters. -/
theorem dsn_template_roundtrip (u p h d : String) :
    DatabaseConfig.dsn
        { endpoint := h ++ ":5432", database := d, username := u, password := p } =
      "postgres://" ++ u ++ ":" ++ p ++ "@" ++ h ++ ":5432/" ++ d := by
  simp [DatabaseConfig.dsn, String.append_assoc]

/-- C10: with the peer relation absent, every `PeerData` operation is total
and side-effect free — `__getitem__` returns the empty dict, `pop` returns
the empty dict and leaves the (absent) peer state unchanged, and
`__setitem__` writes nothing; each is a plain early return, so none can
raise. -/
theorem peer_data_no_relation_noop (k : String) (v : PDict) :
    peer_data_get none k = [] ∧
    peer_data_set none k v = none ∧
    peer_data_pop none k = ([], none) :=
  ⟨rfl, rfl, rfl⟩

/-- C2: whenever any `NOOP_CONDITIONS` readiness predicate is false, the
holistic handler returns immediately: the charm state is unchanged, the
effects record is empty (no ensure step entered, no writes, no Pebble plan
call), and the outcome is a plain return rather than an exception. -/
theorem gate_failure_is_noop (s : CharmSt)
    (h : (NOOP_CONDITIONS s).all id = false) :
    holistic_handler s = { st := s, eff := {}, outcome := .gated } := by
  simp [holistic_handler, h]

/-- A gate-failing state: the container is not connected. -/
def gated_state : CharmSt :=
  { can_connect := false }

/-- Witness for C2 at a concrete state with a failing first predicate. -/
theorem gate_failure_is_noop_witness :
    (NOOP_CONDITIONS gated_state).all id = false ∧
    holistic_handler gated_state =
      { st := gated_state, eff := {}, outcome := .gated } :=
  ⟨by decide, gate_failure_is_noop gated_state (by decide)⟩

-- C5: the migration check and the crash on unparseable check output.

/-- A state in which the check command exits 0 with empty stderr but
unparseable stdout: gate passing, leader, API-token secret present. -/
def migration_crash_state : CharmSt :=
  { leader := true, api_token_secret := some [("api-token", "t")],
    check_exec := .ok "" "", peer_data := some [] }

/-- A gate-passing leader state whose check command reports a status other
than `ok`, with everything else healthy. -/
def migration_pending_state : CharmSt :=
  { leader := true, api_token_secret := some [("api-token", "t")],
    check_exec := .ok "\x7b\"status\": \"synced\"\x7d" "", peer_data := some [],
    store_ready := true, create_model_outcome := .ok "m1",
    db := { endpoint := "h:5432", database := "d", username := "u", password := "p" } }

/-- C5: the migration check returns ready exactly on exit 0, empty stderr and
JSON stdout whose `status` is `ok`; another status value yields not-ready and
a failing command yields `MigrationCheckError`; a not-ready check makes the
leader invoke `migrate up` exactly once with the DSN rendered from the
current database integration data. But on stdout that does not parse as
JSON, the code raises an uncaught `json.JSONDecodeError` — not the
`MigrationCheckError` the claim (and spec §6) promises — and the exception
propagates out of the holistic handler. -/
theorem migration_check_spec_and_crash :
    migration_check (.ok "\x7b\"status\": \"ok\"\x7d" "") = .ok true ∧
    migration_check (.ok "\x7b\"status\": \"synced\"\x7d" "") = .ok false ∧
    migration_check .fail =
      .error (.charm (.migrationCheckError "Failed to check migration status")) ∧
    migration_check (.ok "x" "") = .error .jsonDecodeError ∧
    migration_check (.ok "" "") = .error .jsonDecodeError ∧
    (holistic_handler migration_crash_state).outcome = .raised .jsonDecodeError ∧
    (holistic_handler migration_pending_state).eff.migrate_up_calls =
      ["postgres://u:p@h:5432/d"] ∧
    (holistic_handler migration_pending_state).outcome = .planned := by
  decide

-- C8: deterministic, precedence-ordered environment rendering.

/-- C8: rendering the Pebble layer is a pure function of the six input
snapshots — rendering twice yields identical layers — and, when the secret
and config contributions resolve, the rendered environment is exactly the
default map overridden by the sources in the fixed order
tracing → database → secrets → config → OpenFGA model → OpenFGA integration,
later sources winning on key collision (lookup falls through the sources in
reverse order down to the defaults). -/
theorem render_pebble_layer_deterministic_merge
    (tr : TracingData) (db : DatabaseConfig) (sec : Option SecretContent)
    (cfg : ConfigData) (consumer : Option SecretContent)
    (md : OpenFGAModelData) (fga : OpenFGAIntegrationData)
    (sec_env cfg_env : EnvMap)
    (hs : secrets_to_env_vars sec = .ok sec_env)
    (hc : config_to_env_vars cfg consumer = .ok cfg_env) :
    render_pebble_layer tr db sec cfg consumer md fga =
      render_pebble_layer tr db sec cfg consumer md fga ∧
    render_pebble_layer tr db sec cfg consumer md fga =
      .ok { command := SERVICE_COMMAND, startup := "disabled",
            check_url := "http://localhost:8080/api/v0/status",
            environment :=
              ofga_to_env_vars fga ++ openfga_model_to_env_vars md ++ cfg_env ++
                sec_env ++ db_to_env_vars db ++ tracing_to_env_vars tr ++
                DEFAULT_CONTAINER_ENV } ∧
    ∀ L, render_pebble_layer tr db sec cfg consumer md fga = .ok L →
      ∀ k, env_get L.environment k =
        (env_get (ofga_to_env_vars fga) k).orElse (fun _ =>
          (env_get (openfga_model_to_env_vars md) k).orElse (fun _ =>
            (env_get cfg_env k).orElse (fun _ =>
              (env_get sec_env k).orElse (fun _ =>
                (env_get (db_to_env_vars db) k).orElse (fun _ =>
                  (env_get (tracing_to_env_vars tr) k).orElse (fun _ =>
                    env_get DEFAULT_CONTAINER_ENV k)))))) := by
  have hrender : render_pebble_layer tr db sec cfg consumer md fga =
      .ok { command := SERVICE_COMMAND, startup := "disabled",
            check_url := "http://localhost:8080/api/v0/status",
            environment :=
              ofga_to_env_vars fga ++ openfga_model_to_env_vars md ++ cfg_env ++
                sec_env ++ db_to_env_vars db ++ tracing_to_env_vars tr ++
                DEFAULT_CONTAINER_ENV } := by
    simp [render_pebble_layer, hs, hc]
  refine ⟨rfl, hrender, ?_⟩
  intro L hL k
  rw [hrender] at hL
  cases hL
  simp only [env_get_append, env_orElse_assoc]

/-- Witness inputs for C8: the API-token secret present, a default config
(Salesforce disabled), and arbitrary small snapshots. -/
def render_witness_secret : Option SecretContent := some [("api-token", "t")]

/-- Witness for C8 at concrete inputs, with both fallible contributions
resolving. -/
theorem render_pebble_layer_deterministic_merge_witness :
    secrets_to_env_vars render_witness_secret = .ok [("API_TOKEN", .s "t")] ∧
    config_to_env_vars {} none =
      .ok [("LOG_LEVEL", .s "INFO"), ("SALESFORCE_ENABLED", .b true),
           ("HTTP_PROXY", .s ""), ("HTTPS_PROXY", .s ""), ("NO_PROXY", .s "")] ∧
    render_pebble_layer {} {} render_witness_secret {} none {} {} =
      .ok { command := SERVICE_COMMAND, startup := "disabled",
            check_url := "http://localhost:8080/api/v0/status",
            environment :=
              ofga_to_env_vars {} ++ openfga_model_to_env_vars {} ++
                [("LOG_LEVEL", .s "INFO"), ("SALESFORCE_ENABLED", .b true),
                 ("HTTP_PROXY", .s ""), ("HTTPS_PROXY", .s ""), ("NO_PROXY", .s "")] ++
                [("API_TOKEN", .s "t")] ++ db_to_env_vars {} ++
                tracing_to_env_vars {} ++ DEFAULT_CONTAINER_ENV } :=
  ⟨by decide, by decide,
    (render_pebble_layer_deterministic_merge {} {} render_witness_secret {} none
      {} {} [("API_TOKEN", .s "t")]
      [("LOG_LEVEL", .s "INFO"), ("SALESFORCE_ENABLED", .b true),
       ("HTTP_PROXY", .s ""), ("HTTPS_PROXY", .s ""), ("NO_PROXY", .s "")]
      (by decide) (by decide)).2.1⟩

-- Pipeline loop lemmas.

/-- A step function touches only its own effect counters, never the loop's
bookkeeping fields. -/
def step_preserves_bookkeeping (step : World → Nat → Except PyErr Bool × World) : Prop :=
  ∀ w i, ((step w i).2).eff.results = w.eff.results ∧
    ((step w i).2).eff.steps_run = w.eff.steps_run ∧
    ((step w i).2).eff.charm_errors_caught = w.eff.charm_errors_caught ∧
    ((step w i).2).eff.plan_calls = w.eff.plan_calls

/-- The six ensure steps preserve the loop's bookkeeping fields. -/
theorem run_ensure_preserves : step_preserves_bookkeeping run_ensure := by
  intro w i
  rcases i with _ | _ | _ | _ | _ | _ | _ | i <;>
    first
    | exact ⟨rfl, rfl, rfl, rfl⟩
    | · simp only [run_ensure, ensure_secrets, ensure_hydra_relation,
          ensure_internal_ingress, ensure_database_migration,
          ensure_openfga_model, ensure_tls]
        repeat' split
        all_goals exact ⟨rfl, rfl, rfl, rfl⟩

/-- Once `can_plan` is false the loop evaluates no further step: Python's
`can_plan and f()` short-circuits, so the remaining iterations leave the
world untouched. -/
theorem ensure_loop_skips_after_failure
    (step : World → Nat → Except PyErr Bool × World) :
    ∀ (steps : List Nat) (w : World),
      ensure_loop step w false steps = (w, false, none) := by
  intro steps
  induction steps with
  | nil => intro w; rfl
  | cons i rest ih => intro w; simp [ensure_loop, ih]

/-- Unfolding of the loop when the step completed with a boolean. -/
theorem ensure_loop_cons_ok
    (step : World → Nat → Except PyErr Bool × World) (w w2 : World)
    (i : Nat) (rest : List Nat) (b : Bool)
    (hs : step (record_step w i) i = (.ok b, w2)) :
    ensure_loop step w true (i :: rest) =
      ensure_loop step (record_result w2 b) b rest := by
  simp [ensure_loop, hs]

/-- Unfolding of the loop when the step raised a `CharmError`. -/
theorem ensure_loop_cons_charm
    (step : World → Nat → Except PyErr Bool × World) (w w2 : World)
    (i : Nat) (rest : List Nat) (e : PyErr)
    (hs : step (record_step w i) i = (.error e, w2))
    (hch : e.isCharmError = true) :
    ensure_loop step w true (i :: rest) =
      ensure_loop step (record_caught w2) false rest := by
  simp [ensure_loop, hs, hch]

/-- Unfolding of the loop when the step raised a non-`CharmError`. -/
theorem ensure_loop_cons_raise
    (step : World → Nat → Except PyErr Bool × World) (w w2 : World)
    (i : Nat) (rest : List Nat) (e : PyErr)
    (hs : step (record_step w i) i = (.error e, w2))
    (hch : e.isCharmError = false) :
    ensure_loop step w true (i :: rest) = (w2, false, some e) := by
  simp [ensure_loop, hs, hch]

/-- Any exception the loop lets escape is not a `CharmError` (those are all
caught and converted to a false `can_plan`). -/
theorem ensure_loop_exc_not_charm
    (step : World → Nat → Except PyErr Bool × World) :
    ∀ (steps : List Nat) (w : World) (cp : Bool) (e : PyErr),
      (ensure_loop step w cp steps).2.2 = some e → e.isCharmError = false := by
  intro steps
  induction steps with
  | nil => intro w cp e h; simp [ensure_loop] at h
  | cons i rest ih =>
    intro w cp e h
    cases cp with
    | false =>
      rw [ensure_loop_skips_after_failure] at h
      simp at h
    | true =>
      rcases hs : step (record_step w i) i with ⟨r, w2⟩
      rcases r with e1 | b
      · rcases hch : e1.isCharmError with _ | _
        · rw [ensure_loop_cons_raise step w w2 i rest e1 hs hch] at h
          simp only [Option.some.injEq] at h
          exact h ▸ hch
        · rw [ensure_loop_cons_charm step w w2 i rest e1 hs hch] at h
          exact ih _ _ _ h
      · rw [ensure_loop_cons_ok step w w2 i rest b hs] at h
        exact ih _ _ _ h

/-- If the loop caught a `CharmError` (the caught counter grew), the final
`can_plan` is false and no exception escaped the loop. -/
theorem ensure_loop_caught
    (step : World → Nat → Except PyErr Bool × World)
    (hstep : step_preserves_bookkeeping step) :
    ∀ (steps : List Nat) (w : World) (cp : Bool),
      w.eff.charm_errors_caught <
          (ensure_loop step w cp steps).1.eff.charm_errors_caught →
      (ensure_loop step w cp steps).2.1 = false ∧
        (ensure_loop step w cp steps).2.2 = none := by
  intro steps
  induction steps with
  | nil => intro w cp h; simp [ensure_loop] at h
  | cons i rest ih =>
    intro w cp h
    cases cp with
    | false =>
      rw [ensure_loop_skips_after_failure] at h
      simp at h
    | true =>
      rcases hs : step (record_step w i) i with ⟨r, w2⟩
      have hw2 := hstep (record_step w i) i
      rw [hs] at hw2
      have hc2 : w2.eff.charm_errors_caught = w.eff.charm_errors_caught := by
        have := hw2.2.2.1
        simpa [record_step] using this
      rcases r with e1 | b
      · rcases hch : e1.isCharmError with _ | _
        · rw [ensure_loop_cons_raise step w w2 i rest e1 hs hch] at h
          simp only at h
          omega
        · rw [ensure_loop_cons_charm step w w2 i rest e1 hs hch]
          rw [ensure_loop_skips_after_failure]
          exact ⟨rfl, rfl⟩
      · rw [ensure_loop_cons_ok step w w2 i rest b hs] at h ⊢
        apply ih
        have hc3 : (record_result w2 b).eff.charm_errors_caught =
            w.eff.charm_errors_caught := by
          simpa [record_result] using hc2
        omega

/-- The loop never touches the plan-call counter. -/
theorem ensure_loop_plan_calls
    (step : World → Nat → Except PyErr Bool × World)
    (hstep : step_preserves_bookkeeping step) :
    ∀ (steps : List Nat) (w : World) (cp : Bool),
      (ensure_loop step w cp steps).1.eff.plan_calls = w.eff.plan_calls := by
  intro steps
  induction steps with
  | nil => intro w cp; rfl
  | cons i rest ih =>
    intro w cp
    cases cp with
    | false => rw [ensure_loop_skips_after_failure]
    | true =>
      rcases hs : step (record_step w i) i with ⟨r, w2⟩
      have hw2 := hstep (record_step w i) i
      rw [hs] at hw2
      have hp2 : w2.eff.plan_calls = w.eff.plan_calls := by
        have := hw2.2.2.2
        simpa [record_step] using this
      rcases r with e1 | b
      · rcases hch : e1.isCharmError with _ | _
        · rw [ensure_loop_cons_raise step w w2 i rest e1 hs hch]
          exact hp2
        · rw [ensure_loop_cons_charm step w w2 i rest e1 hs hch, ih]
          simpa [record_caught] using hp2
      · rw [ensure_loop_cons_ok step w w2 i rest b hs, ih]
        simpa [record_result] using hp2

/-- The execution trace of the loop started with `can_plan = True`: the
results recorded are an all-successful prefix possibly closed by one failure;
the steps entered are exactly the first `tr.length` of the list (when no
exception escaped); and the final `can_plan` is true exactly when every step
ran and succeeded. -/
theorem ensure_loop_trace
    (step : World → Nat → Except PyErr Bool × World)
    (hstep : step_preserves_bookkeeping step) :
    ∀ (steps : List Nat) (w : World),
      ∃ tr : List Bool,
        (ensure_loop step w true steps).1.eff.results = w.eff.results ++ tr ∧
        ((ensure_loop step w true steps).2.2 = none →
          (ensure_loop step w true steps).1.eff.steps_run =
            w.eff.steps_run ++ steps.take tr.length) ∧
        tr.dropLast.all id = true ∧
        ((ensure_loop step w true steps).2.2 = none →
          ((ensure_loop step w true steps).2.1 = true ↔
            tr = List.replicate steps.length true)) := by
  intro steps
  induction steps with
  | nil =>
    intro w
    exact ⟨[], by simp [ensure_loop], by simp [ensure_loop], rfl,
      by simp [ensure_loop]⟩
  | cons i rest ih =>
    intro w
    rcases hs : step (record_step w i) i with ⟨r, w2⟩
    have hw2 := hstep (record_step w i) i
    rw [hs] at hw2
    have hres2 : w2.eff.results = w.eff.results := by
      have := hw2.1
      simpa [record_step] using this
    have hrun2 : w2.eff.steps_run = w.eff.steps_run ++ [i] := by
      have := hw2.2.1
      simpa [record_step] using this
    rcases r with e1 | b
    · rcases hch : e1.isCharmError with _ | _
      · -- a non-CharmError propagates at once
        rw [ensure_loop_cons_raise step w w2 i rest e1 hs hch]
        refine ⟨[], by simpa using hres2, ?_, rfl, ?_⟩
        · intro hnone
          simp at hnone
        · intro hnone
          simp at hnone
      · -- a caught CharmError: a false result recorded, later steps skipped
        rw [ensure_loop_cons_charm step w w2 i rest e1 hs hch]
        rw [ensure_loop_skips_after_failure]
        refine ⟨[false], ?_, ?_, rfl, ?_⟩
        · simp [record_caught, hres2]
        · intro _
          simp [record_caught, hrun2]
        · intro _
          simp [List.replicate_succ]
    · rcases b with _ | _
      · -- the step returned False: later steps skipped
        rw [ensure_loop_cons_ok step w w2 i rest false hs]
        rw [ensure_loop_skips_after_failure]
        refine ⟨[false], ?_, ?_, rfl, ?_⟩
        · simp [record_result, hres2]
        · intro _
          simp [record_result, hrun2]
        · intro _
          simp [List.replicate_succ]
      · -- the step returned True: recurse
        rw [ensure_loop_cons_ok step w w2 i rest true hs]
        rcases ih (record_result w2 true) with ⟨tr, htr1, htr2, htr3, htr4⟩
        refine ⟨true :: tr, ?_, ?_, ?_, ?_⟩
        · rw [htr1]
          simp [record_result, hres2]
        · intro hnone
          rw [htr2 hnone]
          simp [record_result, hrun2, List.take_succ_cons]
        · rcases tr with _ | ⟨t0, tr'⟩
          · rfl
          · simpa using htr3
        · intro hnone
          rw [htr4 hnone]
          simp [List.replicate_succ]

-- C1: pipeline execution order and short-circuiting.

/-- A gate-passing state on a non-leader unit with no API-token secret:
`_ensure_secrets` returns `False`. -/
def pipeline_cex_state : CharmSt :=
  { leader := false, api_token_secret := none, peer_data := some [] }

/-- Counterexample to C1: in this gate-passing pass the first ensure step
fails, and — because `can_plan = can_plan and f()` short-circuits — none of
the five later steps runs (only step 1 is entered; in particular
`_ensure_tls`, which unconditionally succeeds, is never reached), the handler
returning with a false can-apply flag. -/
theorem ensure_pipeline_short_circuits_cex :
    (NOOP_CONDITIONS pipeline_cex_state).all id = true ∧
    (holistic_handler pipeline_cex_state).eff.steps_run = [1] ∧
    (holistic_handler pipeline_cex_state).eff.results = [false] ∧
    (holistic_handler pipeline_cex_state).eff.tls_refreshes = 0 ∧
    (holistic_handler pipeline_cex_state).outcome = .blocked := by
  decide

/-- C1 (amended): in every gate-passing pass whose pipeline raises no
exception, the ensure steps are attempted left to right but evaluation
short-circuits at the first failure — every executed step except possibly the
last returned success, the steps entered are exactly the first `tr.length`
entries of `[1, 2, 3, 4, 5, 6]`, and the can-apply flag is true exactly when
all six steps ran and succeeded (so the flag is the conjunction of the
results, but a failure of an earlier step prevents every later step from
running). -/
theorem ensure_pipeline_execution_spec (s : CharmSt)
    (_hgate : (NOOP_CONDITIONS s).all id = true)
    (hnoexc : (run_pipeline s).2.2 = none) :
    ∃ tr : List Bool,
      (run_pipeline s).1.eff.results = tr ∧
      (run_pipeline s).1.eff.steps_run = [1, 2, 3, 4, 5, 6].take tr.length ∧
      tr.dropLast.all id = true ∧
      ((run_pipeline s).2.1 = true ↔
        tr = [true, true, true, true, true, true]) := by
  rcases ensure_loop_trace run_ensure run_ensure_preserves [1, 2, 3, 4, 5, 6]
      { st := s, eff := {} } with ⟨tr, h1, h2, h3, h4⟩
  refine ⟨tr, ?_, ?_, h3, ?_⟩
  · simpa [run_pipeline] using h1
  · have := h2 hnoexc
    simpa [run_pipeline] using this
  · have := h4 hnoexc
    simpa [run_pipeline, List.replicate] using this

/-- A state on which every ensure step succeeds. -/
def pipeline_ok_state : CharmSt :=
  { leader := true, api_token_secret := some [("api-token", "t")],
    check_exec := .ok "\x7b\"status\": \"ok\"\x7d" "", peer_data := some [],
    store_ready := true, create_model_outcome := .ok "m1",
    workload_version := "1.10.0" }

/-- Witness for C1 (amended) at a state whose pass runs all six steps. -/
theorem ensure_pipeline_execution_spec_witness :
    (NOOP_CONDITIONS pipeline_ok_state).all id = true ∧
    (run_pipeline pipeline_ok_state).2.2 = none ∧
    ∃ tr : List Bool,
      (run_pipeline pipeline_ok_state).1.eff.results = tr ∧
      (run_pipeline pipeline_ok_state).1.eff.steps_run =
        [1, 2, 3, 4, 5, 6].take tr.length ∧
      tr.dropLast.all id = true ∧
      ((run_pipeline pipeline_ok_state).2.1 = true ↔
        tr = [true, true, true, true, true, true]) :=
  ⟨by decide, by decide,
    ensure_pipeline_execution_spec pipeline_ok_state (by decide) (by decide)⟩

-- C4: containment of typed failures, propagation of the plan failure.

/-- No ensure step changes whether the Pebble plan call would fail. -/
theorem run_ensure_plan_fails (w : World) (i : Nat) :
    ((run_ensure w i).2).st.plan_fails = w.st.plan_fails := by
  rcases i with _ | _ | _ | _ | _ | _ | _ | i <;>
    first
    | rfl
    | · simp only [run_ensure, ensure_secrets, ensure_hydra_relation,
          ensure_internal_ingress, ensure_database_migration,
          ensure_openfga_model, ensure_tls]
        repeat' split
        all_goals rfl

/-- The loop preserves any state field its steps preserve: the plan-failure
flag. -/
theorem ensure_loop_plan_fails_state
    (step : World → Nat → Except PyErr Bool × World)
    (hstep : ∀ w i, ((step w i).2).st.plan_fails = w.st.plan_fails) :
    ∀ (steps : List Nat) (w : World) (cp : Bool),
      (ensure_loop step w cp steps).1.st.plan_fails = w.st.plan_fails := by
  intro steps
  induction steps with
  | nil => intro w cp; rfl
  | cons i rest ih =>
    intro w cp
    cases cp with
    | false => rw [ensure_loop_skips_after_failure]
    | true =>
      rcases hs : step (record_step w i) i with ⟨r, w2⟩
      have hw2 := hstep (record_step w i) i
      rw [hs] at hw2
      have hp2 : w2.st.plan_fails = w.st.plan_fails := by
        simpa [record_step] using hw2
      rcases r with e1 | b
      · rcases hch : e1.isCharmError with _ | _
        · rw [ensure_loop_cons_raise step w w2 i rest e1 hs hch]
          exact hp2
        · rw [ensure_loop_cons_charm step w w2 i rest e1 hs hch, ih]
          simpa [record_caught] using hp2
      · rw [ensure_loop_cons_ok step w w2 i rest b hs, ih]
        simpa [record_result] using hp2

/-- Unfolding of the handler when the pipeline let an exception escape. -/
theorem holistic_handler_raised (s : CharmSt) (w : World) (cp : Bool) (e : PyErr)
    (hgate : (NOOP_CONDITIONS s).all id = true)
    (hpr : run_pipeline s = (w, cp, some e)) :
    holistic_handler s = { st := w.st, eff := w.eff, outcome := .raised e } := by
  simp [holistic_handler, hgate, hpr]

/-- Unfolding of the handler when the pipeline ended with a false flag. -/
theorem holistic_handler_blocked (s : CharmSt) (w : World)
    (hgate : (NOOP_CONDITIONS s).all id = true)
    (hpr : run_pipeline s = (w, false, none)) :
    holistic_handler s = { st := w.st, eff := w.eff, outcome := .blocked } := by
  simp [holistic_handler, hgate, hpr]

/-- Unfolding of the handler when the pipeline succeeded but rendering the
layer raised. -/
theorem holistic_handler_render_raised (s : CharmSt) (w : World) (e : PyErr)
    (hgate : (NOOP_CONDITIONS s).all id = true)
    (hpr : run_pipeline s = (w, true, none))
    (hlay : pebble_layer w.st = .error e) :
    holistic_handler s = { st := w.st, eff := w.eff, outcome := .raised e } := by
  simp [holistic_handler, hgate, hpr, hlay]

/-- Unfolding of the handler when the plan call is reached and fails. -/
theorem holistic_handler_plan_raised (s : CharmSt) (w : World) (l : Layer)
    (hgate : (NOOP_CONDITIONS s).all id = true)
    (hpr : run_pipeline s = (w, true, none))
    (hlay : pebble_layer w.st = .ok l)
    (hfail : w.st.plan_fails = true) :
    holistic_handler s =
      { st := w.st, eff := { w.eff with plan_calls := w.eff.plan_calls + 1 },
        outcome := .raised (.charm .pebbleError) } := by
  simp [holistic_handler, hgate, hpr, hlay, hfail]

/-- C4: in every gate-passing pass, (a) no `CharmError` raised inside an
ensure step escapes the pipeline loop — any escaping exception is a
non-`CharmError`; (b) if the loop caught a `CharmError` it was converted to a
false can-apply flag: the handler returns normally (blocked) without
planning; and (c) when the final plan call is reached (`plan_calls = 1`) and
Pebble fails, the resulting `PebbleError` propagates out of the handler and
aborts the event. -/
theorem charm_error_containment_spec (s : CharmSt)
    (hgate : (NOOP_CONDITIONS s).all id = true) :
    (∀ e, (run_pipeline s).2.2 = some e → e.isCharmError = false) ∧
    (0 < (run_pipeline s).1.eff.charm_errors_caught →
      (holistic_handler s).outcome = .blocked ∧
        (holistic_handler s).eff.plan_calls = 0) ∧
    (s.plan_fails = true → (holistic_handler s).eff.plan_calls = 1 →
      (holistic_handler s).outcome = .raised (.charm .pebbleError)) := by
  have hplan : (run_pipeline s).1.eff.plan_calls = 0 :=
    ensure_loop_plan_calls run_ensure run_ensure_preserves _ _ _
  refine ⟨?_, ?_, ?_⟩
  · intro e he
    exact ensure_loop_exc_not_charm run_ensure _ _ _ _ he
  · intro hc
    have hcaught : (run_pipeline s).2.1 = false ∧ (run_pipeline s).2.2 = none :=
      ensure_loop_caught run_ensure run_ensure_preserves _ _ _ hc
    rcases hpr : run_pipeline s with ⟨w, cp, exc⟩
    rw [hpr] at hcaught hplan
    simp only at hcaught hplan
    rcases hcaught with ⟨hcp, hexc⟩
    subst hcp
    subst hexc
    rw [holistic_handler_blocked s w hgate hpr]
    exact ⟨rfl, hplan⟩
  · intro hfail hcalls
    rcases hpr : run_pipeline s with ⟨w, cp, exc⟩
    rw [hpr] at hplan
    simp only at hplan
    have hwfail : w.st.plan_fails = true := by
      have hpf : (run_pipeline s).1.st.plan_fails = s.plan_fails :=
        ensure_loop_plan_fails_state run_ensure run_ensure_plan_fails _ _ _
      rw [hpr] at hpf
      simp only at hpf
      rw [hpf]
      exact hfail
    rcases exc with _ | e
    · rcases cp with _ | _
      · rw [holistic_handler_blocked s w hgate hpr] at hcalls
        simp only at hcalls
        omega
      · rcases hlay : pebble_layer w.st with e | l
        · rw [holistic_handler_render_raised s w e hgate hpr hlay] at hcalls
          simp only at hcalls
          omega
        · rw [holistic_handler_plan_raised s w l hgate hpr hlay hwfail]
    · rw [holistic_handler_raised s w cp e hgate hpr] at hcalls
      simp only at hcalls
      omega

/-- A gate-passing state whose pipeline succeeds but whose Pebble plan call
fails. -/
def plan_failure_state : CharmSt :=
  { leader := true, api_token_secret := some [("api-token", "t")],
    check_exec := .ok "\x7b\"status\": \"ok\"\x7d" "", peer_data := some [],
    store_ready := true, create_model_outcome := .ok "m1",
    workload_version := "1.10.0", plan_fails := true }

/-- Witness for C4: at this concrete state the plan call is reached and its
`PebbleError` aborts the event. -/
theorem charm_error_containment_spec_witness :
    (NOOP_CONDITIONS plan_failure_state).all id = true ∧
    plan_failure_state.plan_fails = true ∧
    (holistic_handler plan_failure_state).eff.plan_calls = 1 ∧
    (holistic_handler plan_failure_state).outcome = .raised (.charm .pebbleError) :=
  ⟨by decide, by decide, by decide,
    (charm_error_containment_spec plan_failure_state (by decide)).2.2
      (by decide) (by decide)⟩

-- C6: versioned idempotency of the OpenFGA model provisioning step.

/-- A world in which peer data records the provisioning flag for the current
workload version but the OpenFGA store is not ready. -/
def openfga_flagged_world : World :=
  { st := { leader := true, workload_version := "1.10.0", store_ready := false,
            peer_data := some [("1.10.0", [("openfga_model_id", "model-1")])] },
    eff := {} }

/-- Counterexample to C6: with the provisioning flag recorded for the current
workload version but the store-ready guard (checked first) failing, the step
indeed does not invoke the creation command — but it returns failure, not the
success the claim states. -/
theorem openfga_model_step_store_guard_cex :
    openfga_model_flag openfga_flagged_world.st = true ∧
    ensure_openfga_model openfga_flagged_world = (.ok false, openfga_flagged_world) ∧
    (ensure_openfga_model openfga_flagged_world).2.eff.create_model_calls = 0 ∧
    (ensure_openfga_model openfga_flagged_world).1 ≠ .ok true := by
  decide

/-- C6 (amended): if peer data already records a provisioning flag under the
unit's current workload version, the ensure-openfga-model step never invokes
the creation command and never writes peer data, and — provided the
store-ready guard, which the code checks first, passes — returns success
unchanged; if the current version has no recorded flag and the store, peer
relation, and leadership preconditions hold and creation succeeds, the
command is invoked exactly once and the model id is recorded in peer data
under the current version. -/
theorem openfga_model_idempotency_spec (w : World) :
    (openfga_model_flag w.st = true →
      (ensure_openfga_model w).2.eff.create_model_calls = w.eff.create_model_calls ∧
      (ensure_openfga_model w).2.st.peer_data = w.st.peer_data ∧
      (w.st.store_ready = true → ensure_openfga_model w = (.ok true, w))) ∧
    (openfga_model_flag w.st = false → w.st.store_ready = true →
      peer_integration_exists w.st = true → w.st.leader = true →
      ∀ mid, w.st.create_model_outcome = .ok mid →
        (ensure_openfga_model w).1 = .ok true ∧
        (ensure_openfga_model w).2.eff.create_model_calls =
          w.eff.create_model_calls + 1 ∧
        peer_data_get (ensure_openfga_model w).2.st.peer_data
          w.st.workload_version = [(OPENFGA_MODEL_ID, mid)]) := by
  constructor
  · intro hflag
    have hpeer : peer_integration_exists w.st = true := by
      rcases hpd : w.st.peer_data with _ | bag
      · simp [openfga_model_flag, peer_data_get, hpd] at hflag
      · simp [peer_integration_exists, hpd]
    rcases hst : w.st.store_ready with _ | _
    · refine ⟨?_, ?_, ?_⟩ <;> simp [ensure_openfga_model, hst]
    · refine ⟨?_, ?_, ?_⟩ <;> simp [ensure_openfga_model, hst, hpeer, hflag]
  · intro hflag hst hpeer hleader mid hmid
    have h1 : ensure_openfga_model w =
        (.ok true,
          { st := { w.st with
              peer_data := peer_data_set w.st.peer_data w.st.workload_version
                [(OPENFGA_MODEL_ID, mid)] },
            eff := { w.eff with
              create_model_calls := w.eff.create_model_calls + 1 } }) := by
      simp [ensure_openfga_model, hst, hpeer, hflag, hleader, hmid]
    rw [h1]
    refine ⟨rfl, rfl, ?_⟩
    rcases hpd : w.st.peer_data with _ | bag
    · simp [peer_integration_exists, hpd] at hpeer
    · simp [hpd, peer_data_set, peer_data_get, List.lookup]

/-- A world ready for first-time provisioning of version `1.11.0`: the flag
is recorded only for `1.10.0`. -/
def openfga_bumped_world : World :=
  { st := { leader := true, workload_version := "1.11.0", store_ready := true,
            create_model_outcome := .ok "model-2",
            peer_data := some [("1.10.0", [("openfga_model_id", "model-1")])] },
    eff := {} }

/-- Witness for C6 (amended): the flagged world (with a ready store) skips
creation; the version-bumped world invokes it once and records the result
under the new version. -/
theorem openfga_model_idempotency_spec_witness :
    (openfga_model_flag openfga_bumped_world.st = false ∧
      ensure_openfga_model
          { openfga_flagged_world with
            st := { openfga_flagged_world.st with store_ready := true } } =
        (.ok true,
          { openfga_flagged_world with
            st := { openfga_flagged_world.st with store_ready := true } })) ∧
    (ensure_openfga_model openfga_bumped_world).1 = .ok true ∧
    (ensure_openfga_model openfga_bumped_world).2.eff.create_model_calls = 1 ∧
    peer_data_get (ensure_openfga_model openfga_bumped_world).2.st.peer_data
      "1.11.0" = [(OPENFGA_MODEL_ID, "model-2")] :=
  have h2 := (openfga_model_idempotency_spec openfga_bumped_world).2
    (by decide) (by decide) (by decide) (by decide) "model-2" (by decide)
  ⟨⟨by decide,
    ((openfga_model_idempotency_spec
        { openfga_flagged_world with
          st := { openfga_flagged_world.st with store_ready := true } }).1
      (by decide)).2.2 (by decide)⟩,
    h2.1, h2.2.1, h2.2.2⟩

-- C7: the API-token secret is created at most once, and never by a
-- non-leader.

/-- Repeated reconciliation passes of the secrets step: each pass sets the
unit's leadership for that pass and runs `_ensure_secrets`, threading the
charm state (the secret store) through. -/
def iterate_ensure_secrets : World → List Bool → World
  | w, [] => w
  | w, ld :: rest =>
    iterate_ensure_secrets
      (ensure_secrets { w with st := { w.st with leader := ld } }).2 rest

/-- When the secret store is ready, `_ensure_secrets` succeeds without any
write and changes nothing. -/
theorem ensure_secrets_ready (w : World)
    (h : secrets_is_ready w.st.api_token_secret = true) :
    ensure_secrets w = (.ok true, w) := by
  simp [ensure_secrets, h]

/-- Once the secret exists, no later pass writes it again. -/
theorem iterate_ensure_secrets_ready :
    ∀ (lds : List Bool) (w : World),
      secrets_is_ready w.st.api_token_secret = true →
      (iterate_ensure_secrets w lds).eff.secret_writes = w.eff.secret_writes := by
  intro lds
  induction lds with
  | nil => intro w h; rfl
  | cons ld rest ih =>
    intro w h
    have h1 : secrets_is_ready
        ({ w with st := { w.st with leader := ld } } : World).st.api_token_secret = true := h
    rw [iterate_ensure_secrets, ensure_secrets_ready _ h1]
    exact ih _ h1

/-- Across any sequence of passes, the secret is written at most once. -/
theorem iterate_ensure_secrets_bound :
    ∀ (lds : List Bool) (w : World),
      (iterate_ensure_secrets w lds).eff.secret_writes ≤ w.eff.secret_writes + 1 := by
  intro lds
  induction lds with
  | nil => intro w; simp [iterate_ensure_secrets]
  | cons ld rest ih =>
    intro w
    rcases hr : secrets_is_ready w.st.api_token_secret with _ | _
    · rcases ld with _ | _
      · -- a non-leader pass changes nothing
        rw [iterate_ensure_secrets]
        have h2 : (ensure_secrets { w with st := { w.st with leader := false } }).2 =
            { w with st := { w.st with leader := false } } := by
          simp [ensure_secrets, hr]
        rw [h2]
        exact ih _
      · -- the leader creates the secret; afterwards it stays ready
        rw [iterate_ensure_secrets]
        have hwrite : (ensure_secrets { w with st := { w.st with leader := true } }).2 =
            { st := { w.st with
                leader := true,
                api_token_secret := some [(API_TOKEN_SECRET_KEY, w.st.fresh_token)] },
              eff := { w.eff with secret_writes := w.eff.secret_writes + 1 } } := by
          simp [ensure_secrets, hr]
        rw [hwrite]
        rw [iterate_ensure_secrets_ready rest _ (by simp [secrets_is_ready])]
    · rw [iterate_ensure_secrets]
      have h2 : (ensure_secrets { w with st := { w.st with leader := ld } }).2 =
          { w with st := { w.st with leader := ld } } := by
        rw [ensure_secrets_ready { w with st := { w.st with leader := ld } } hr]
      rw [h2, iterate_ensure_secrets_ready rest
        { w with st := { w.st with leader := ld } } hr]
      simp

/-- C7: across any sequence of reconciliation passes (with arbitrary
leadership per pass), the shared API-token secret is created at most once —
in particular, once the secret exists the step returns success without
writing — and a non-leader unit never creates it: with the secret absent and
the unit not leader, the step writes nothing and returns failure. -/
theorem secrets_created_at_most_once (w : World) (lds : List Bool) :
    (secrets_is_ready w.st.api_token_secret = true →
      (iterate_ensure_secrets w lds).eff.secret_writes = w.eff.secret_writes ∧
      ensure_secrets w = (.ok true, w)) ∧
    (secrets_is_ready w.st.api_token_secret = false → w.st.leader = false →
      ensure_secrets w = (.ok false, w)) ∧
    (iterate_ensure_secrets w lds).eff.secret_writes ≤ w.eff.secret_writes + 1 := by
  refine ⟨?_, ?_, iterate_ensure_secrets_bound lds w⟩
  · intro h
    exact ⟨iterate_ensure_secrets_ready lds w h, ensure_secrets_ready w h⟩
  · intro h hl
    simp [ensure_secrets, h, hl]

/-- A world with the secret present. -/
def secret_ready_world : World :=
  { st := { api_token_secret := some [("api-token", "t")] }, eff := {} }

/-- A non-leader world with the secret absent. -/
def secret_absent_world : World :=
  { st := { leader := false, api_token_secret := none }, eff := {} }

/-- Witness for C7 at concrete worlds and a concrete pass sequence. -/
theorem secrets_created_at_most_once_witness :
    (secrets_is_ready secret_ready_world.st.api_token_secret = true ∧
      (iterate_ensure_secrets secret_ready_world [true, false, true]).eff.secret_writes = 0) ∧
    (secrets_is_ready secret_absent_world.st.api_token_secret = false ∧
      ensure_secrets secret_absent_world = (.ok false, secret_absent_world)) ∧
    (iterate_ensure_secrets secret_absent_world [false, true, true]).eff.secret_writes ≤ 1 :=
  ⟨⟨by decide,
    ((secrets_created_at_most_once secret_ready_world [true, false, true]).1
      (by decide)).1⟩,
   ⟨by decide,
    (secrets_created_at_most_once secret_absent_world []).2.1 (by decide) (by decide)⟩,
   (secrets_created_at_most_once secret_absent_world [false, true, true]).2.2⟩

-- C3: status projection priority.

/-- A left fold that keeps the first element of maximal severity dominates
its start and every element folded over. -/
theorem foldl_best_ge (rest : List UnitStatus) :
    ∀ init : UnitStatus,
      init.severity ≤
        (rest.foldl (fun best t => if t.severity > best.severity then t else best)
          init).severity ∧
      ∀ t ∈ rest,
        t.severity ≤
          (rest.foldl (fun best t => if t.severity > best.severity then t else best)
            init).severity := by
  induction rest with
  | nil =>
    intro init
    exact ⟨le_refl _, by simp⟩
  | cons r rest ih =>
    intro init
    simp only [List.foldl_cons]
    have h1 : init.severity ≤
        (if r.severity > init.severity then r else init).severity := by
      split <;> omega
    have h2 : r.severity ≤
        (if r.severity > init.severity then r else init).severity := by
      split <;> omega
    rcases ih (if r.severity > init.severity then r else init) with ⟨ha, hb⟩
    refine ⟨le_trans h1 ha, ?_⟩
    intro t ht
    rcases List.mem_cons.mp ht with h | h
    · subst h
      exact le_trans h2 ha
    · exact hb t h

/-- The displayed status has at least the severity of every collected one. -/
theorem pick_status_ge (l : List UnitStatus) (t : UnitStatus) (h : t ∈ l) :
    t.severity ≤ (pick_status l).severity := by
  rcases l with _ | ⟨s0, rest⟩
  · simp at h
  · simp only [pick_status]
    rcases List.mem_cons.mp h with h1 | h1
    · subst h1
      exact (foldl_best_ge rest t).1
    · exact (foldl_best_ge rest s0).2 t h1

/-- C3 (amended): when the container is not connected and required config
keys are missing, the "container not connected" waiting status is still the
first status collected (the checks do run in the fixed order with container
connectivity first), but the status the user sees is not it: the framework
displays the highest-severity collected status and blocked outranks waiting,
so the reported status is a blocked one (the missing-config blocked status in
this situation); evaluation order only breaks severity ties. -/
theorem collect_status_priority_spec (s : CharmSt)
    (hcc : s.can_connect = false)
    (hmk : get_missing_config_keys s.config ≠ []) :
    ∀ l, collect_statuses s = .ok l →
      l.head? = some .waitingContainerNotConnected ∧
      UnitStatus.blockedMissingConfig (get_missing_config_keys s.config) ∈ l ∧
      ∀ st, reported_status s = .ok st →
        4 ≤ st.severity ∧ st ≠ .waitingContainerNotConnected := by
  intro l hl
  have hcol := hl
  rcases hm : get_migration_status s with e | ms
  · simp [collect_statuses, hm] at hl
  · simp only [collect_statuses, hm, Except.ok.injEq] at hl
    have hmkb : (get_missing_config_keys s.config).isEmpty = false := by
      rcases hie : (get_missing_config_keys s.config).isEmpty with _ | _
      · rfl
      · exact absurd (List.isEmpty_iff.mp hie) hmk
    have hmem : UnitStatus.blockedMissingConfig (get_missing_config_keys s.config) ∈ l := by
      rw [← hl]
      simp [hmkb]
    refine ⟨?_, hmem, ?_⟩
    · rw [← hl]
      simp [hcc]
    · intro st hst
      simp only [reported_status, hcol, Except.ok.injEq] at hst
      have h4 : 4 ≤ (pick_status l).severity := by
        have := pick_status_ge l _ hmem
        simpa [UnitStatus.severity] using this
      subst hst
      refine ⟨h4, ?_⟩
      intro heq
      rw [heq] at h4
      simp [UnitStatus.severity] at h4

/-- A state with the container disconnected and the Salesforce toggle on with
both dependent keys unset (so both conditions of the claim hold at once). -/
def collect_cex_state : CharmSt :=
  { can_connect := false,
    config := { salesforce_enabled := some true },
    api_token_secret := some [("api-token", "t")],
    check_exec := .ok "\x7b\"status\": \"ok\"\x7d" "", store_ready := true,
    leader := true }

/-- Counterexample to C3: in a state where the container is disconnected and
required config keys are missing, the reported unit status is the blocked
missing-configuration status, not the "Container is not connected yet"
waiting status the claim predicts. -/
theorem collect_status_blocked_wins_cex :
    collect_cex_state.can_connect = false ∧
    get_missing_config_keys collect_cex_state.config =
      ["salesforce_domain", "salesforce_consumer_secret"] ∧
    reported_status collect_cex_state =
      .ok (.blockedMissingConfig ["salesforce_domain", "salesforce_consumer_secret"]) ∧
    reported_status collect_cex_state ≠ .ok .waitingContainerNotConnected := by
  decide

/-- The statuses collected in `collect_cex_state`, in order. -/
def collect_cex_statuses : List UnitStatus :=
  [.waitingContainerNotConnected,
   .blockedMissingConfig ["salesforce_domain", "salesforce_consumer_secret"],
   .active, .active]

/-- Witness for C3 (amended) at the concrete state. -/
theorem collect_status_priority_spec_witness :
    collect_cex_state.can_connect = false ∧
    get_missing_config_keys collect_cex_state.config ≠ [] ∧
    collect_statuses collect_cex_state = .ok collect_cex_statuses ∧
    reported_status collect_cex_state =
      .ok (.blockedMissingConfig ["salesforce_domain", "salesforce_consumer_secret"]) ∧
    (4 ≤ (UnitStatus.blockedMissingConfig
        ["salesforce_domain", "salesforce_consumer_secret"]).severity ∧
      UnitStatus.blockedMissingConfig
          ["salesforce_domain", "salesforce_consumer_secret"] ≠
        .waitingContainerNotConnected) :=
  ⟨by decide, by decide, by decide, by decide,
    ((collect_status_priority_spec collect_cex_state (by decide) (by decide))
        collect_cex_statuses (by decide)).2.2 _ (by decide)⟩

end HookService
